import Mathlib

/-!
Shallow embedding of model.py, an FC-DenseNet style segmentation network.

Tensors are modelled as 4-dimensional arrays (batch, channel, row, column) of
integers; the numerical library's floating-point field is abstracted to the
integers, which preserves every shape, channel-bookkeeping and
value-propagation fact the development states.  Library modules are embedded
with their evaluation-mode semantics: batch normalization is a per-channel
affine map whose coefficients (folded from learned weight, bias and running
statistics) appear as explicit parameters; dropout is the identity;
convolution is a genuine cross-correlation over explicit weights.

Python-level failures of the source (unbound names, missing attributes,
inverted checks) are embedded as Except values carrying the exception raised.
-/

/-- Python exceptions raised on the code paths modelled here.  The payloads of
the Python messages are recorded in the doc comments of the definitions that
raise them. -/
inductive PyError where
  | valueErrorLayersDown
  | valueErrorLayersUp
  | attributeErrorNChannels
  | nameErrorKeepInput
  | typeErrorGetattr
  deriving DecidableEq

/-- True exactly when the computation returned normally rather than raising. -/
def exceptOk {α : Type} (e : Except PyError α) : Bool :=
  match e with
  | Except.ok _ => true
  | Except.error _ => false

/-- 4-dimensional tensor: data b c i j is the value at batch b, channel c,
row i, column j, for b < batch, c < channels, i < height, j < width. -/
structure Tensor where
  batch : Nat
  channels : Nat
  height : Nat
  width : Nat
  data : Nat → Nat → Nat → Nat → Int

/-- Zero-padded read: positions outside the spatial extent read as zero, as in
a spatially padded convolution. -/
def Tensor.at0 (t : Tensor) (b c : Nat) (i j : Int) : Int :=
  if 0 ≤ i ∧ i < (t.height : Int) ∧ 0 ≤ j ∧ j < (t.width : Int) then
    t.data b c i.toNat j.toNat
  else 0

/-- Elementwise rectifier, F.relu. -/
def relu (t : Tensor) : Tensor :=
  { t with data := fun b c i j => max (t.data b c i j) 0 }

/-- nn.BatchNorm2d in evaluation mode: a per-channel affine map.  The scale and
shift are folded from the learned weight, bias and running statistics by the
numerical library and appear here as explicit per-channel parameters. -/
structure BatchNorm2d where
  num_features : Nat
  scale : Nat → Int
  shift : Nat → Int

/-- Applies the per-channel affine map of evaluation-mode batch normalization. -/
def BatchNorm2d.forward (bn : BatchNorm2d) (t : Tensor) : Tensor :=
  { t with data := fun b c i j => bn.scale c * t.data b c i j + bn.shift c }

/-- nn.Dropout2d in evaluation mode is the identity map; training-mode channel
sampling is external randomness outside this embedding. -/
def dropout2d (t : Tensor) : Tensor := t

/-- Output spatial extent of nn.Conv2d along one dimension, for kernel k,
padding p, stride s. -/
def convOutDim (h k p s : Nat) : Nat := (h + 2 * p - k) / s + 1

/-- Sum of f over 0, 1, ..., n-1. -/
def sumRange (n : Nat) (f : Nat → Int) : Int :=
  (List.range n).foldl (fun acc i => acc + f i) 0

/-- nn.Conv2d with a square kernel: weight indexed by output channel, input
channel, kernel row, kernel column; per-output-channel bias (the zero function
models bias=False). -/
structure Conv2d where
  in_channels : Nat
  out_channels : Nat
  kernel_size : Nat
  padding : Nat
  stride : Nat
  weight : Nat → Nat → Nat → Nat → Int
  bias : Nat → Int

/-- Cross-correlation with zero padding, the evaluation of nn.Conv2d. -/
def Conv2d.forward (cv : Conv2d) (t : Tensor) : Tensor :=
  { batch := t.batch
    channels := cv.out_channels
    height := convOutDim t.height cv.kernel_size cv.padding cv.stride
    width := convOutDim t.width cv.kernel_size cv.padding cv.stride
    data := fun b co i j =>
      cv.bias co +
        sumRange cv.in_channels (fun ci =>
          sumRange cv.kernel_size (fun ki =>
            sumRange cv.kernel_size (fun kj =>
              cv.weight co ci ki kj *
                t.at0 b ci (((i * cv.stride + ki : Nat) : Int) - (cv.padding : Int))
                  (((j * cv.stride + kj : Nat) : Int) - (cv.padding : Int))))) }

/-- torch.cat along dimension 1, the channel axis, as written in
DenseLayer.forward (line 42).  The library requires the remaining dimensions to
agree, so the model adopts the first argument's batch and spatial extent. -/
def catChannels (x y : Tensor) : Tensor :=
  { batch := x.batch
    channels := x.channels + y.channels
    height := x.height
    width := x.width
    data := fun b c i j =>
      if c < x.channels then x.data b c i j else y.data b (c - x.channels) i j }

/-- torch.cat with no dim argument concatenates along dimension 0, the batch
axis; this is the call written at line 273 of DenseNet103.forward. -/
def catBatch (x y : Tensor) : Tensor :=
  { batch := x.batch + y.batch
    channels := x.channels
    height := x.height
    width := x.width
    data := fun b c i j =>
      if b < x.batch then x.data b c i j else y.data (b - x.batch) c i j }

/-- nn.MaxPool2d((2,2), stride=2): 2 by 2 windows with stride 2, no padding. -/
def maxPool2x2 (t : Tensor) : Tensor :=
  { batch := t.batch
    channels := t.channels
    height := (t.height - 2) / 2 + 1
    width := (t.width - 2) / 2 + 1
    data := fun b c i j =>
      max (max (t.data b c (2 * i) (2 * j)) (t.data b c (2 * i) (2 * j + 1)))
        (max (t.data b c (2 * i + 1) (2 * j)) (t.data b c (2 * i + 1) (2 * j + 1))) }

/-- DenseLayer (model.py lines 11-43): batch normalization, ReLU, a 3 by 3
same-padded convolution from n_channels to growth_rate maps with bias=False,
channel dropout, then concatenation of the input with the new maps along the
channel axis, input first. -/
structure DenseLayer where
  n_channels : Nat
  growth_rate : Nat
  bn : BatchNorm2d
  conv : Conv2d

/-- DenseLayer.__init__ (lines 13-36): stores the channel counts and builds the
batch normalization and the 3 by 3 convolution with padding 1 and bias=False. -/
def DenseLayer.build (n_channels growth_rate : Nat) (bnScale bnShift : Nat → Int)
    (w : Nat → Nat → Nat → Nat → Int) : DenseLayer :=
  { n_channels := n_channels
    growth_rate := growth_rate
    bn := { num_features := n_channels, scale := bnScale, shift := bnShift }
    conv :=
      { in_channels := n_channels, out_channels := growth_rate, kernel_size := 3
        padding := 1, stride := 1, weight := w, bias := fun _ => 0 } }

/-- DenseLayer.forward (lines 38-43): relu of bn, conv, dropout, then
torch.cat([x, out2], 1). -/
def DenseLayer.forward (l : DenseLayer) (x : Tensor) : Tensor :=
  let out0 := relu (l.bn.forward x)
  let out1 := l.conv.forward out0
  let out2 := dropout2d out1
  catChannels x out2

/-- TransitionDown (model.py lines 45-81). -/
structure TransitionDown where
  n_channels_in : Nat
  n_channels_out : Nat
  bn : BatchNorm2d
  conv : Conv2d

/-- TransitionDown.__init__ (lines 47-73): the output channel count defaults to
the input channel count when the n_channels_out argument is None; builds batch
normalization, a 1 by 1 convolution (whose bias defaults to True in the
library) and the 2 by 2 stride-2 max pool. -/
def TransitionDown.build (n_channels_in : Nat) (n_channels_out : Option Nat)
    (bnScale bnShift : Nat → Int) (w : Nat → Nat → Nat → Nat → Int)
    (bias : Nat → Int) : TransitionDown :=
  let nOut := match n_channels_out with
    | some n => n
    | none => n_channels_in
  { n_channels_in := n_channels_in
    n_channels_out := nOut
    bn := { num_features := n_channels_in, scale := bnScale, shift := bnShift }
    conv :=
      { in_channels := n_channels_in, out_channels := nOut, kernel_size := 1
        padding := 0, stride := 1, weight := w, bias := bias } }

/-- TransitionDown.forward (lines 75-81): relu of bn, 1 by 1 conv, dropout,
then max pooling. -/
def TransitionDown.forward (td : TransitionDown) (x : Tensor) : Tensor :=
  let out0 := relu (td.bn.forward x)
  let out1 := td.conv.forward out0
  let out2 := dropout2d out1
  maxPool2x2 out2

/-- Per-layer parameters used when a DenseBlock builds its DenseLayers. -/
structure DenseLayerParams where
  bnScale : Nat → Int
  bnShift : Nat → Int
  weight : Nat → Nat → Nat → Nat → Int

/-- DenseBlock (model.py lines 116-165).  The keep_input flag influences only
the declared n_channels_out recorded at construction; the flag itself is never
stored on the instance. -/
structure DenseBlock where
  n_layers : Nat
  n_channels : Nat
  growth_rate : Nat
  n_channels_out : Nat
  block : List DenseLayer

/-- DenseBlock.__init__ and _build_block (lines 118-165): records the declared
output channel count, n_channels + growth_rate * n_layers when keep_input else
growth_rate * n_layers, and builds layer i with n_channels + i * growth_rate
input channels. -/
def DenseBlock.build (n_layers n_channels growth_rate : Nat) (keep_input : Bool)
    (params : Nat → DenseLayerParams) : DenseBlock :=
  { n_layers := n_layers
    n_channels := n_channels
    growth_rate := growth_rate
    n_channels_out :=
      if keep_input then n_channels + growth_rate * n_layers
      else growth_rate * n_layers
    block :=
      (List.range n_layers).map (fun i =>
        DenseLayer.build (n_channels + growth_rate * i) growth_rate
          (params i).bnScale (params i).bnShift (params i).weight) }

/-- Sequential application of the block's layer stack, nn.Sequential as built
by _build_block. -/
def DenseBlock.blockApply (db : DenseBlock) (x : Tensor) : Tensor :=
  db.block.foldl (fun t l => l.forward t) x

/-- DenseBlock.forward (lines 147-151): after running the sequential stack, the
method evaluates the bare names keep_input and n_channels.  Neither is a local,
an enclosing, a module-global or a builtin name (and keep_input was never
stored on self either), so Python raises NameError evaluating keep_input at
line 149, for every instance and every input, before any tensor is returned. -/
def DenseBlock.forward (db : DenseBlock) (x : Tensor) : Except PyError Tensor :=
  let _out := db.blockApply x
  Except.error PyError.nameErrorKeepInput

/-- DenseNet103.__init__ (model.py lines 169-241).  Lines 200-205 validate the
layer-list lengths: first raise ValueError when len(n_layers_down) differs from
n_pool, then raise ValueError when len(n_layers_up) EQUALS n_pool — the second
comparison is inverted relative to its own error message, which reads
n_layers_up must be length n_pool.  Any configuration surviving both checks
reaches line 207, where nn.Conv2d is given self.n_channels; no attribute named
n_channels is ever assigned on the instance (only n_channels_first is), so
nn.Module raises AttributeError.  Every path therefore raises, the module
construction from line 207 on is unreachable, and no instance is returned. -/
def DenseNet103.init (growth_rate n_pool n_classes n_channels_first : Nat)
    (n_layers_down n_layers_up : List Nat) : Except PyError Unit :=
  if n_layers_down.length ≠ n_pool then Except.error PyError.valueErrorLayersDown
  else if n_layers_up.length = n_pool then Except.error PyError.valueErrorLayersUp
  else Except.error PyError.attributeErrorNChannels

/-- Python list subscript written l[-i], as at line 270 of DenseNet103.forward
(skip = dblock_outs[-i]): minus zero is zero, so i = 0 reads the FIRST cached
activation; for 1 ≤ i ≤ len(l) the subscript reads l[len(l) - i]; otherwise the
subscript is out of range. -/
def pyNegIdx (l : List Tensor) (i : Nat) : Option Tensor :=
  if i = 0 then l[0]?
  else if i ≤ l.length then l[l.length - i]?
  else none

/-- Constant tensor of a given shape, used for concrete instantiations. -/
def constTensor (b c h w : Nat) (v : Int) : Tensor :=
  { batch := b, channels := c, height := h, width := w, data := fun _ _ _ _ => v }

/-- Cached encoder activation of stage 0 in a two-stage configuration. -/
def skipStage0 : Tensor := constTensor 1 24 32 32 0

/-- Cached encoder activation of stage 1 in a two-stage configuration. -/
def skipStage1 : Tensor := constTensor 1 40 16 16 1

/-- Concrete layer parameters for instantiating blocks. -/
def zeroLayerParams : DenseLayerParams :=
  { bnScale := fun _ => 1, bnShift := fun _ => 0, weight := fun _ _ _ _ => 1 }

/-- Concrete DenseBlock with keep_input=false: 2 layers, 4 input channels,
growth rate 16. -/
def dbNoKeep : DenseBlock := DenseBlock.build 2 4 16 false (fun _ => zeroLayerParams)

/-- Concrete input for dbNoKeep, shape (1, 4, 8, 8). -/
def dbNoKeepX : Tensor := constTensor 1 4 8 8 1

/-- Concrete DenseBlock with keep_input=true: 2 layers, 3 input channels,
growth rate 2. -/
def dbKeep : DenseBlock := DenseBlock.build 2 3 2 true (fun _ => zeroLayerParams)

/-- Concrete input for dbKeep, shape (1, 3, 4, 4). -/
def dbKeepX : Tensor := constTensor 1 3 4 4 0

/-- Concrete input tensor of shape (1, 2, 3, 3) for the DenseLayer witness. -/
def xDL : Tensor := constTensor 1 2 3 3 5

/-- Concrete input tensor of shape (1, 4, 7, 10) for the TransitionDown witness. -/
def xTD : Tensor := constTensor 1 4 7 10 2

theorem convOutDim_same3 (h : Nat) (hh : 1 ≤ h) : convOutDim h 3 1 1 = h := by
  unfold convOutDim; omega

theorem convOutDim_same1 (h : Nat) (hh : 1 ≤ h) : convOutDim h 1 0 1 = h := by
  unfold convOutDim; omega

theorem maxPoolDim_half (h : Nat) (hh : 2 ≤ h) : (h - 2) / 2 + 1 = h / 2 := by
  omega

/-- C1: the claim asserts that the configuration growth_rate=16, n_pool=2,
n_classes=3, n_channels_first=8, n_layers_down=[2,2], n_layers_up=[2,2]
constructs a network whose forward pass returns a (1, 3, 64, 64) tensor.  On
the code, construction itself raises: len(n_layers_up) equals n_pool, so the
inverted check on line 202 raises ValueError, and no forward pass can run. -/
theorem C1_construction_raises :
    DenseNet103.init 16 2 3 8 [2, 2] [2, 2] = Except.error PyError.valueErrorLayersUp := rfl

/-- C2: the claim asserts that validation passes whenever both layer lists have
length n_pool.  On the code, such configurations are rejected by the inverted
check on line 202 (first conjunct), and configurations that do pass validation
still raise AttributeError on the unset self.n_channels (second conjunct). -/
theorem C2_validation_inverted :
    DenseNet103.init 16 3 5 48 [4, 5, 7] [4, 5, 7] = Except.error PyError.valueErrorLayersUp ∧
    DenseNet103.init 16 2 3 8 [2, 2] [2] = Except.error PyError.attributeErrorNChannels :=
  ⟨rfl, rfl⟩

/-- C3: the claim asserts a declared channel-count chain over the constructed
network for every valid configuration.  On the code, no network is ever
constructed — here a representative valid configuration (both lists of length
n_pool = 4) raises during construction — so no declared channel metadata
exists to walk. -/
theorem C3_no_constructed_network :
    exceptOk (DenseNet103.init 16 4 2 48 [4, 5, 7, 10] [12, 10, 7, 5]) = false := rfl

/-- C4: the claim asserts that a keep_input=false DenseBlock emits exactly the
last n_layers * growth_rate channels of the internal concatenation.  On the
code, forward raises NameError on the unbound bare name keep_input for this
concrete block and input, so nothing is emitted; the declared output channel
count (the count the claim expects on the emitted tensor) is 16 * 2. -/
theorem C4_noKeep_forward_raises :
    dbNoKeep.forward dbNoKeepX = Except.error PyError.nameErrorKeepInput ∧
    dbNoKeep.n_channels_out = 16 * 2 :=
  ⟨rfl, rfl⟩

/-- C5: the claim asserts that a keep_input=true DenseBlock emits a tensor with
n_channels + n_layers * growth_rate channels.  On the code, forward raises
NameError on the unbound bare name keep_input for this concrete block and
input; the declared output channel count does equal 3 + 2 * 2. -/
theorem C5_keep_forward_raises :
    dbKeep.forward dbKeepX = Except.error PyError.nameErrorKeepInput ∧
    dbKeep.n_channels_out = 3 + 2 * 2 :=
  ⟨rfl, rfl⟩

/-- C6: a DenseLayer applied to a well-formed tensor whose channel count equals
the configured input channel count returns a tensor of shape
(B, C + growth_rate, H, W) whose first C channels are numerically identical to
the input, the input being concatenated first. -/
theorem C6_denselayer_concat (nc g : Nat) (bs bsh : Nat → Int)
    (w : Nat → Nat → Nat → Nat → Int) (x : Tensor)
    (hc : x.channels = nc) (hh : 1 ≤ x.height) (hw : 1 ≤ x.width) :
    ((DenseLayer.build nc g bs bsh w).forward x).batch = x.batch ∧
    ((DenseLayer.build nc g bs bsh w).forward x).channels = nc + g ∧
    ((DenseLayer.build nc g bs bsh w).forward x).height = x.height ∧
    ((DenseLayer.build nc g bs bsh w).forward x).width = x.width ∧
    ∀ b c i j, c < nc →
      ((DenseLayer.build nc g bs bsh w).forward x).data b c i j = x.data b c i j := by
  subst hc
  refine ⟨rfl, rfl, rfl, rfl, ?_⟩
  intro b c i j hlt
  show (if c < x.channels then x.data b c i j else _) = x.data b c i j
  simp [hlt]

/-- Witness for C6 at a concrete layer (2 input channels, growth rate 4) and a
concrete (1, 2, 3, 3) tensor. -/
theorem C6_denselayer_concat_witness :
    xDL.channels = 2 ∧ 1 ≤ xDL.height ∧ 1 ≤ xDL.width ∧
    ((DenseLayer.build 2 4 (fun _ => 1) (fun _ => 0) (fun _ _ _ _ => 1)).forward xDL).channels
      = 2 + 4 :=
  ⟨rfl, by decide, by decide,
    (C6_denselayer_concat 2 4 (fun _ => 1) (fun _ => 0) (fun _ _ _ _ => 1) xDL rfl
      (by decide) (by decide)).2.1⟩

/-- C7: the claim asserts that decoder stage i consumes the cached encoder
activation at index n_pool - 1 - i, concatenated along the channel axis.  On
the code this fails three ways: construction always raises, so no forward pass
exists (first conjunct); the source selects skip = dblock_outs[-i], which at
i = 0 reads cache index 0 where the claim requires index n_pool - 1 - 0 = 1,
two genuinely different activations (conjuncts two to four); and line 273
calls torch.cat([skip, up]) with no dim argument, concatenating along the
batch axis, not the channel axis (last two conjuncts). -/
theorem C7_skip_pairing_fails :
    exceptOk (DenseNet103.init 16 2 3 8 [2, 2] [2, 2]) = false ∧
    pyNegIdx [skipStage0, skipStage1] 0 = some skipStage0 ∧
    [skipStage0, skipStage1][2 - 1 - 0]? = some skipStage1 ∧
    skipStage0.channels ≠ skipStage1.channels ∧
    (catBatch skipStage0 skipStage1).batch = skipStage0.batch + skipStage1.batch ∧
    (catBatch skipStage0 skipStage1).channels = skipStage0.channels :=
  ⟨rfl, rfl, rfl, by decide, rfl, rfl⟩

/-- C8: TransitionDown maps a well-formed (B, C, H, W) tensor with C equal to
the configured input channel count to (B, C_out, H / 2, W / 2), where C_out is
the configured output channel count, defaulting to the input channel count
when the constructor received None. -/
theorem C8_transitiondown_shape (nIn : Nat) (nOutOpt : Option Nat)
    (bs bsh : Nat → Int) (w : Nat → Nat → Nat → Nat → Int) (bias : Nat → Int)
    (x : Tensor) (hc : x.channels = nIn) (hh : 2 ≤ x.height) (hw : 2 ≤ x.width) :
    ((TransitionDown.build nIn nOutOpt bs bsh w bias).forward x).batch = x.batch ∧
    ((TransitionDown.build nIn nOutOpt bs bsh w bias).forward x).channels
      = (TransitionDown.build nIn nOutOpt bs bsh w bias).n_channels_out ∧
    (TransitionDown.build nIn nOutOpt bs bsh w bias).n_channels_out = nOutOpt.getD nIn ∧
    ((TransitionDown.build nIn nOutOpt bs bsh w bias).forward x).height = x.height / 2 ∧
    ((TransitionDown.build nIn nOutOpt bs bsh w bias).forward x).width = x.width / 2 := by
  refine ⟨rfl, rfl, ?_, ?_, ?_⟩
  · cases nOutOpt <;> rfl
  · show (convOutDim x.height 1 0 1 - 2) / 2 + 1 = x.height / 2
    unfold convOutDim; omega
  · show (convOutDim x.width 1 0 1 - 2) / 2 + 1 = x.width / 2
    unfold convOutDim; omega

/-- Witness for C8 at a concrete transition (4 input channels, 6 output
channels) and a concrete (1, 4, 7, 10) tensor. -/
theorem C8_transitiondown_shape_witness :
    xTD.channels = 4 ∧ 2 ≤ xTD.height ∧ 2 ≤ xTD.width ∧
    ((TransitionDown.build 4 (some 6) (fun _ => 1) (fun _ => 0) (fun _ _ _ _ => 1)
        (fun _ => 0)).forward xTD).height = xTD.height / 2 :=
  ⟨rfl, by decide, by decide,
    (C8_transitiondown_shape 4 (some 6) (fun _ => 1) (fun _ => 0) (fun _ _ _ _ => 1)
      (fun _ => 0) xTD rfl (by decide) (by decide)).2.2.2.1⟩

/-- C9: for every configuration, DenseNet103 construction raises and never
returns an instance; in particular a configuration whose down-list has length
n_pool is rejected by the inverted up-list check when the up-list also has
length n_pool, and otherwise passes validation only to raise AttributeError on
the never-assigned n_channels attribute read by the initial convolution. -/
theorem C9_construction_always_fails (g p c f : Nat) (down up : List Nat) :
    exceptOk (DenseNet103.init g p c f down up) = false ∧
    (down.length = p →
      DenseNet103.init g p c f down up =
        if up.length = p then Except.error PyError.valueErrorLayersUp
        else Except.error PyError.attributeErrorNChannels) := by
  constructor
  · unfold DenseNet103.init
    split_ifs <;> rfl
  · intro hdown
    unfold DenseNet103.init
    rw [if_neg (by simp [hdown])]

/-- Witness for C9 at the concrete configuration growth_rate=16, n_pool=2,
n_classes=3, n_channels_first=8, down=[2,2], up=[2,2]. -/
theorem C9_construction_always_fails_witness :
    exceptOk (DenseNet103.init 16 2 3 8 [2, 2] [2, 2]) = false ∧
    DenseNet103.init 16 2 3 8 [2, 2] [2, 2] =
      if ([2, 2] : List Nat).length = 2 then Except.error PyError.valueErrorLayersUp
      else Except.error PyError.attributeErrorNChannels :=
  ⟨(C9_construction_always_fails 16 2 3 8 [2, 2] [2, 2]).1,
    (C9_construction_always_fails 16 2 3 8 [2, 2] [2, 2]).2 rfl⟩

/-- C10: for every DenseBlock, regardless of how it was built, and every input
tensor, forward raises NameError on the unbound bare name keep_input, so no
DenseBlock ever emits an output tensor. -/
theorem C10_denseblock_forward_raises (db : DenseBlock) (x : Tensor) :
    db.forward x = Except.error PyError.nameErrorKeepInput := rfl
